import Mathlib

/-!
EventHub backend — verification of the capacity-safe registration workflow.

Shallow embedding of the EventHub backend (Express + SQLite event management
app). The database (tables `events` and `registrations`) is modelled as lists
of records; every `database.js` function and the relevant HTTP handler bodies
from the server file are translated into pure Lean functions over that state.
Fallible storage steps in `deleteEvent` are modelled with explicit failure
flags. JavaScript truthiness tests (`!field`, `x || default`) are modelled on
`Option` values, with the empty string and `0` counting as falsy.
-/

namespace EventHub

/-- A row of the `events` table (`database.js`, `CREATE TABLE events`). -/
structure Event where
  id : Nat
  title : String
  description : String
  date : String
  time : String
  location : String
  capacity : Nat
  attendees : Nat
  category : String
  image : String
  price : Int
deriving Repr, DecidableEq

/-- A row of the `registrations` table (`database.js`, `CREATE TABLE registrations`). -/
structure Registration where
  id : Nat
  eventId : Nat
  firstName : String
  lastName : String
  email : String
  phone : String
  tickets : Nat
  comments : String
deriving Repr, DecidableEq

/-- The persistent store: both tables plus the AUTOINCREMENT counters. -/
structure DB where
  events : List Event
  registrations : List Registration
  nextEventId : Nat
  nextRegId : Nat
deriving Repr, DecidableEq

/-- JavaScript `v || dflt` for an optional string: `undefined` and `""` are falsy. -/
def jsOrString (v : Option String) (dflt : String) : String :=
  match v with
  | none => dflt
  | some s => if s = "" then dflt else s

/-- JavaScript `v || dflt` for an optional number: `undefined` and `0` are falsy. -/
def jsOrInt (v : Option Int) (dflt : Int) : Int :=
  match v with
  | none => dflt
  | some n => if n = 0 then dflt else n

/-- JavaScript truthiness of an optional string field (`!field` is the negation). -/
def truthyStr (v : Option String) : Bool :=
  match v with
  | none => false
  | some s => s ≠ ""

/-- JavaScript truthiness of an optional numeric field (`!field` is the negation). -/
def truthyNat (v : Option Nat) : Bool :=
  match v with
  | none => false
  | some n => n ≠ 0

/-- Comparison for `ORDER BY date, time`: ascending lexicographic on the pair of
TEXT columns (`getAllEvents` in `database.js`). -/
def eventKeyLe (a b : Event) : Bool :=
  decide (a.date < b.date) || (a.date == b.date && decide (a.time ≤ b.time))

/-- Function `getAllEvents(category)` from `database.js`: optional category filter
(`if (category && category !== 'all')`) then `ORDER BY date, time`. -/
def getAllEvents (db : DB) (category : Option String) : List Event :=
  let rows :=
    if truthyStr category && category.getD "" != "all" then
      db.events.filter (fun e => e.category = category.getD "")
    else
      db.events
  rows.mergeSort eventKeyLe

/-- Function `getEventById(id)` from `database.js`: `SELECT * FROM events WHERE id = ?`. -/
def getEventById (db : DB) (id : Nat) : Option Event :=
  db.events.find? (fun e => e.id = id)

/-- Input record for `createEvent` (destructured from `eventData`); `image`
and `price` are the two fields the SQL INSERT defaults when falsy. -/
structure EventData where
  title : String
  description : String
  date : String
  time : String
  location : String
  capacity : Nat
  category : String
  image : Option String
  price : Option Int
deriving Repr, DecidableEq

/-- The default image URL used by `createEvent` when `image` is falsy. -/
def placeholderImage : String :=
  "https://images.unsplash.com/photo-1542736667-069246bdbc6d?ixlib=rb-1.2.1&auto=format&fit=crop&w=1350&q=80"

/-- The object literal `{ id: this.lastID, ...eventData, attendees: 0 }`
returned by `createEvent`: the raw input fields (spread, so `image` and
`price` keep their possibly-absent input values), plus the new id and
`attendees: 0`. -/
structure CreatedEvent where
  id : Nat
  title : String
  description : String
  date : String
  time : String
  location : String
  capacity : Nat
  category : String
  image : Option String
  price : Option Int
  attendees : Nat
deriving Repr, DecidableEq

/-- Function `createEvent(eventData)` from `database.js`: INSERT with
`image || placeholder` and `price || 0`, then resolve
`{ id: this.lastID, ...eventData, attendees: 0 }`. Returns the resolved
object together with the new store state. -/
def createEvent (db : DB) (d : EventData) : CreatedEvent × DB :=
  let stored : Event :=
    { id := db.nextEventId
      title := d.title
      description := d.description
      date := d.date
      time := d.time
      location := d.location
      capacity := d.capacity
      attendees := 0
      category := d.category
      image := jsOrString d.image placeholderImage
      price := jsOrInt d.price 0 }
  let returned : CreatedEvent :=
    { id := db.nextEventId
      title := d.title
      description := d.description
      date := d.date
      time := d.time
      location := d.location
      capacity := d.capacity
      category := d.category
      image := d.image
      price := d.price
      attendees := 0 }
  (returned,
   { db with events := db.events ++ [stored], nextEventId := db.nextEventId + 1 })

/-- Function `updateEventAttendees(eventId, newAttendeeCount)` from `database.js`:
`UPDATE events SET attendees = ? WHERE id = ?`. -/
def updateEventAttendees (db : DB) (eventId newAttendeeCount : Nat) : DB :=
  { db with
    events := db.events.map (fun e =>
      if e.id = eventId then { e with attendees := newAttendeeCount } else e) }

/-- Function `deleteEvent(eventId)` from `database.js`: first
`DELETE FROM registrations WHERE event_id = ?`, then (only if that succeeded)
`DELETE FROM events WHERE id = ?`, resolving `this.changes` of the second
statement. Each `db.run` may fail (sqlite error passed to its callback);
the flags `fail1`, `fail2` inject those failures. Each single statement is
atomic, and there is no surrounding transaction, so a statement that ran
before a later failure stays committed. The result is the promise outcome
(`Except Unit Nat`, `.error` = rejected) together with the store state
observable afterwards. -/
def deleteEvent (db : DB) (eventId : Nat) (fail1 fail2 : Bool) :
    Except Unit Nat × DB :=
  if fail1 then (.error (), db)
  else
    let db1 := { db with
      registrations := db.registrations.filter (fun r => r.eventId ≠ eventId) }
    if fail2 then (.error (), db1)
    else
      let removed := (db1.events.filter (fun e => e.id = eventId)).length
      (.ok removed, { db1 with events := db1.events.filter (fun e => e.id ≠ eventId) })

/-- Input record for `createRegistration` (destructured from `registrationData`). -/
structure RegistrationData where
  eventId : Nat
  firstName : String
  lastName : String
  email : String
  phone : String
  tickets : Nat
  comments : Option String
deriving Repr, DecidableEq

/-- Function `createRegistration(registrationData)` from `database.js`: INSERT with
`comments || ''`, resolving `{ id: this.lastID, ...registrationData }`. -/
def createRegistration (db : DB) (d : RegistrationData) : Registration × DB :=
  let reg : Registration :=
    { id := db.nextRegId
      eventId := d.eventId
      firstName := d.firstName
      lastName := d.lastName
      email := d.email
      phone := d.phone
      tickets := d.tickets
      comments := jsOrString d.comments "" }
  (reg, { db with registrations := db.registrations ++ [reg], nextRegId := db.nextRegId + 1 })

/-- Function `getEventRegistrations(eventId)` from `database.js`:
`SELECT * FROM registrations WHERE event_id = ?`. -/
def getEventRegistrations (db : DB) (eventId : Nat) : List Registration :=
  db.registrations.filter (fun r => r.eventId = eventId)

/-- Function `getEventAttendeeCount(eventId)` from `database.js`:
`SELECT SUM(tickets) ... WHERE event_id = ?`, with `row.total || 0`
turning the NULL of an empty aggregate into 0. -/
def getEventAttendeeCount (db : DB) (eventId : Nat) : Nat :=
  ((getEventRegistrations db eventId).map (fun r => r.tickets)).sum

/-- The JSON body of `POST /api/registrations`; absent fields are `none`. -/
structure RegisterRequest where
  firstName : Option String
  lastName : Option String
  email : Option String
  phone : Option String
  eventId : Option Nat
  tickets : Option Nat
  comments : Option String
deriving Repr, DecidableEq

/-- The four distinguishable outcomes of the `POST /api/registrations`
handler: 400 missing-fields, 404 event-not-found, 400 capacity
(carrying the `event.capacity - currentAttendees` count printed in the
message), and 201 success (carrying the created registration and the
`newAttendeeCount` written back to the event). -/
inductive RegisterOutcome where
  | validationError
  | notFound
  | capacityError (remaining : Int)
  | success (reg : Registration) (newAttendeeCount : Nat)
deriving Repr, DecidableEq

/-- The `!firstName || !lastName || !email || !phone || !eventId || !tickets`
validation test of the registration handler. -/
def missingRequired (r : RegisterRequest) : Bool :=
  !truthyStr r.firstName || !truthyStr r.lastName || !truthyStr r.email ||
  !truthyStr r.phone || !truthyNat r.eventId || !truthyNat r.tickets

/-- The registration data the handler passes to `createRegistration`
(the object literal built in the 201 path of `POST /api/registrations`). -/
def requestData (r : RegisterRequest) : RegistrationData :=
  { eventId := r.eventId.getD 0
    firstName := r.firstName.getD ""
    lastName := r.lastName.getD ""
    email := r.email.getD ""
    phone := r.phone.getD ""
    tickets := r.tickets.getD 0
    comments := r.comments }

/-- Body of `POST /api/registrations`, with the reads (event lookup and
attendee count) taken from `readDb` and the writes applied to `writeDb`.
The handler itself is `register`, where the two coincide; separating them
expresses an interleaving in which another request's writes have not yet
been observed. Steps: validate required fields, look up the event, read the
fresh aggregate ticket count, check `currentAttendees + tickets >
event.capacity`, then `createRegistration` followed by
`updateEventAttendees(eventId, currentAttendees + tickets)`. -/
def registerOn (readDb writeDb : DB) (r : RegisterRequest) : RegisterOutcome × DB :=
  if missingRequired r then (.validationError, writeDb)
  else
    match getEventById readDb (r.eventId.getD 0) with
    | none => (.notFound, writeDb)
    | some event =>
      if getEventAttendeeCount readDb (r.eventId.getD 0) + r.tickets.getD 0 >
          event.capacity then
        (.capacityError ((event.capacity : Int) -
          (getEventAttendeeCount readDb (r.eventId.getD 0) : Int)), writeDb)
      else
        (.success (createRegistration writeDb (requestData r)).1
           (getEventAttendeeCount readDb (r.eventId.getD 0) + r.tickets.getD 0),
         updateEventAttendees (createRegistration writeDb (requestData r)).2
           (r.eventId.getD 0)
           (getEventAttendeeCount readDb (r.eventId.getD 0) + r.tickets.getD 0))

/-- The `POST /api/registrations` handler run without interference: all
reads and writes against the same store. -/
def register (db : DB) (r : RegisterRequest) : RegisterOutcome × DB :=
  registerOn db db r

/-- Running a sequence of registration requests against the store,
keeping the state left by each request (successful or not). -/
def registerSeq (db : DB) (rs : List RegisterRequest) : DB :=
  rs.foldl (fun d r => (register d r).2) db

/-- Per-field agreement between the object `createEvent` resolves with and
an `events` row: same scalar fields, and the row's defaulted `image` and
`price` columns are exactly the values the returned object carries. -/
def createdMatchesStored (c : CreatedEvent) (e : Event) : Prop :=
  c.id = e.id ∧ c.title = e.title ∧ c.description = e.description ∧
  c.date = e.date ∧ c.time = e.time ∧ c.location = e.location ∧
  c.capacity = e.capacity ∧ c.category = e.category ∧
  c.image = some e.image ∧ c.price = some e.price ∧ c.attendees = e.attendees

instance (c : CreatedEvent) (e : Event) : Decidable (createdMatchesStored c e) := by
  unfold createdMatchesStored; infer_instance

/-! ## Concrete sample data used by witnesses and counterexamples -/

/-- A concrete event with capacity 10 and no registrations yet. -/
def sampleEvent : Event :=
  { id := 1, title := "Web Development Workshop", description := "Hands-on workshop"
    date := "2025-11-28", time := "13:00", location := "Hyderabad, Telangana"
    capacity := 10, attendees := 0, category := "tech", image := "img.jpg", price := 1999 }

/-- A concrete registration of 8 tickets against `sampleEvent`. -/
def sampleReg : Registration :=
  { id := 1, eventId := 1, firstName := "Asha", lastName := "Rao"
    email := "asha@example.com", phone := "9999999999", tickets := 8, comments := "" }

/-- A store holding `sampleEvent` with `sampleReg` (8 of 10 tickets taken). -/
def sampleDb : DB :=
  { events := [sampleEvent], registrations := [sampleReg], nextEventId := 2, nextRegId := 2 }

/-- A well-formed registration request for 2 tickets against event 1. -/
def sampleRequest : RegisterRequest :=
  { firstName := some "Ravi", lastName := some "Kumar", email := some "ravi@example.com"
    phone := some "8888888888", eventId := some 1, tickets := some 2, comments := none }

/-! ## Helper lemmas -/

/-- `updateEventAttendees` does not touch the `registrations` table. -/
theorem getEventAttendeeCount_update (db : DB) (i n j : Nat) :
    getEventAttendeeCount (updateEventAttendees db i n) j = getEventAttendeeCount db j := rfl

/-- Inserting a registration row adds its tickets to the aggregate of its
event and leaves every other event's aggregate unchanged. -/
theorem getEventAttendeeCount_createRegistration (db : DB) (d : RegistrationData) (j : Nat) :
    getEventAttendeeCount (createRegistration db d).2 j =
      getEventAttendeeCount db j + (if d.eventId = j then d.tickets else 0) := by
  simp only [getEventAttendeeCount, getEventRegistrations, createRegistration,
    List.filter_append, List.map_append, List.sum_append]
  by_cases h : d.eventId = j <;> simp [h]

/-- `updateEventAttendees` rewrites only the `attendees` column of the
matching rows; lookups afterwards see the same row up to that column. -/
theorem getEventById_update (db : DB) (i n j : Nat) :
    getEventById (updateEventAttendees db i n) j =
      (getEventById db j).map (fun e => if e.id = i then { e with attendees := n } else e) := by
  simp only [getEventById, updateEventAttendees]
  rw [List.find?_map]
  have hp : ((fun e : Event => decide (e.id = j)) ∘ fun e =>
      if e.id = i then { e with attendees := n } else e) =
      (fun e : Event => decide (e.id = j)) := by
    funext e
    by_cases h : e.id = i <;> simp [h, Function.comp]
  rw [hp]

/-- Inserting a registration row does not touch the `events` table. -/
theorem getEventById_createRegistration (db : DB) (d : RegistrationData) (j : Nat) :
    getEventById (createRegistration db d).2 j = getEventById db j := rfl

/-- A found event row satisfies the lookup predicate: its `id` is the key. -/
theorem getEventById_id (db : DB) (j : Nat) (e : Event)
    (h : getEventById db j = some e) : e.id = j := by
  have := List.find?_some h
  simpa using this

/-- Characterisation of the success path of the registration handler:
a 201 response happens exactly via validation passing, the event being
found, the fresh aggregate count admitting the tickets, one registration
row inserted and the event counter overwritten with the new total. -/
theorem register_success_inv (db : DB) (r : RegisterRequest) (reg : Registration)
    (n : Nat) (db' : DB) (h : register db r = (.success reg n, db')) :
    missingRequired r = false ∧
    ∃ event, getEventById db (r.eventId.getD 0) = some event ∧
      getEventAttendeeCount db (r.eventId.getD 0) + r.tickets.getD 0 ≤ event.capacity ∧
      reg = (createRegistration db (requestData r)).1 ∧
      n = getEventAttendeeCount db (r.eventId.getD 0) + r.tickets.getD 0 ∧
      db' = updateEventAttendees (createRegistration db (requestData r)).2
              (r.eventId.getD 0) n := by
  unfold register registerOn at h
  by_cases hv : missingRequired r = true
  · simp [hv] at h
  · rw [Bool.not_eq_true] at hv
    refine ⟨hv, ?_⟩
    simp only [hv, Bool.false_eq_true, if_false] at h
    cases he : getEventById db (r.eventId.getD 0) with
    | none => rw [he] at h; simp at h
    | some event =>
      rw [he] at h
      simp only at h
      by_cases hc : getEventAttendeeCount db (r.eventId.getD 0) + r.tickets.getD 0 >
          event.capacity
      · simp [hc] at h
      · rw [if_neg hc] at h
        refine ⟨event, rfl, Nat.le_of_not_lt hc, ?_⟩
        injection h with h1 h2
        injection h1 with h1a h1b
        refine ⟨h1a.symm, h1b.symm, ?_⟩
        rw [← h1b]
        exact h2.symm

/-- Equation for the rejection branch of the capacity check. -/
theorem registerOn_capacity_eq (readDb writeDb : DB) (r : RegisterRequest) (event : Event)
    (hv : missingRequired r = false)
    (he : getEventById readDb (r.eventId.getD 0) = some event)
    (hgt : getEventAttendeeCount readDb (r.eventId.getD 0) + r.tickets.getD 0 >
      event.capacity) :
    registerOn readDb writeDb r =
      (.capacityError ((event.capacity : Int) -
        (getEventAttendeeCount readDb (r.eventId.getD 0) : Int)), writeDb) := by
  unfold registerOn
  rw [hv]
  simp only [Bool.false_eq_true, if_false, he]
  rw [if_pos hgt]

/-- Equation for the success branch of the registration handler. -/
theorem registerOn_success_eq (readDb writeDb : DB) (r : RegisterRequest) (event : Event)
    (hv : missingRequired r = false)
    (he : getEventById readDb (r.eventId.getD 0) = some event)
    (hle : getEventAttendeeCount readDb (r.eventId.getD 0) + r.tickets.getD 0 ≤
      event.capacity) :
    registerOn readDb writeDb r =
      (.success (createRegistration writeDb (requestData r)).1
         (getEventAttendeeCount readDb (r.eventId.getD 0) + r.tickets.getD 0),
       updateEventAttendees (createRegistration writeDb (requestData r)).2
         (r.eventId.getD 0)
         (getEventAttendeeCount readDb (r.eventId.getD 0) + r.tickets.getD 0)) := by
  unfold registerOn
  rw [hv]
  simp only [Bool.false_eq_true, if_false, he]
  rw [if_neg (Nat.not_lt.mpr hle)]

/-- What a successful registration leaves behind: the inserted row targets
the requested event with the requested ticket count, the post-state
aggregate equals the written counter `n = fresh aggregate + tickets`, and
the event row afterwards is the pre-state row with `attendees := n`, whose
capacity bounds `n`. -/
theorem register_post_state (db : DB) (r : RegisterRequest) (reg : Registration)
    (n : Nat) (db' : DB) (h : register db r = (.success reg n, db')) :
    reg.eventId = r.eventId.getD 0 ∧ reg.tickets = r.tickets.getD 0 ∧
    getEventAttendeeCount db' reg.eventId = n ∧
    n = getEventAttendeeCount db reg.eventId + reg.tickets ∧
    ∃ ev, getEventById db reg.eventId = some ev ∧
      getEventById db' reg.eventId = some { ev with attendees := n } ∧
      n ≤ ev.capacity := by
  obtain ⟨hv, ev, hev, hle, hreg, hn, hdb⟩ := register_success_inv db r reg n db' h
  have hre : reg.eventId = r.eventId.getD 0 := by rw [hreg]; rfl
  have hrt : reg.tickets = r.tickets.getD 0 := by rw [hreg]; rfl
  have hevid : ev.id = r.eventId.getD 0 := getEventById_id _ _ _ hev
  have hcnt : getEventAttendeeCount db' reg.eventId = n := by
    rw [hdb, hre, getEventAttendeeCount_update, getEventAttendeeCount_createRegistration,
      if_pos (show (requestData r).eventId = r.eventId.getD 0 from rfl)]
    exact hn.symm
  refine ⟨hre, hrt, hcnt, by rw [hre, hrt]; exact hn, ev, by rw [hre]; exact hev, ?_, ?_⟩
  · rw [hdb, hre, getEventById_update, getEventById_createRegistration, hev]
    simp [hevid]
  · rw [hn]
    exact hle

/-- When validation passes, every required field is truthy. -/
theorem missingRequired_false_iff (r : RegisterRequest) :
    missingRequired r = false ↔
      truthyStr r.firstName = true ∧ truthyStr r.lastName = true ∧
      truthyStr r.email = true ∧ truthyStr r.phone = true ∧
      truthyNat r.eventId = true ∧ truthyNat r.tickets = true := by
  simp [missingRequired]
  tauto

/-- A truthy numeric field is a present, non-zero number. -/
theorem truthyNat_getD (v : Option Nat) (h : truthyNat v = true) : v.getD 0 ≠ 0 := by
  cases v with
  | none => simp [truthyNat] at h
  | some n => simpa [truthyNat] using h

/-- No call to the registration handler ever adds a zero-ticket row:
every zero-ticket row in the post-state was already in the pre-state. -/
theorem register_no_zero_ticket_row (db : DB) (r : RegisterRequest) :
    ∀ x ∈ (register db r).2.registrations, x.tickets = 0 → x ∈ db.registrations := by
  intro x hx ht
  by_cases hv : missingRequired r = true
  · simpa [register, registerOn, hv] using hx
  · rw [Bool.not_eq_true] at hv
    cases he : getEventById db (r.eventId.getD 0) with
    | none => simpa [register, registerOn, hv, he] using hx
    | some event =>
      by_cases hc : getEventAttendeeCount db (r.eventId.getD 0) + r.tickets.getD 0 >
          event.capacity
      · simpa [register, registerOn, hv, he, hc] using hx
      · have hx' : x ∈ db.registrations ++ [(createRegistration db (requestData r)).1] := by
          simpa [register, registerOn, hv, he, hc, updateEventAttendees,
            createRegistration] using hx
        rcases List.mem_append.mp hx' with h1 | h2
        · exact h1
        · exfalso
          have hxe : x = (createRegistration db (requestData r)).1 := by simpa using h2
          have hnz : truthyNat r.tickets = true :=
            ((missingRequired_false_iff r).mp hv).2.2.2.2.2
          have : x.tickets = r.tickets.getD 0 := by
            rw [hxe]; rfl
          exact truthyNat_getD r.tickets hnz (this ▸ ht)

/-- Claim C8: A register request missing any of the required fields
(firstName, lastName, email, phone, eventId, tickets) is rejected with the
validation outcome — a constructor distinct from the not-found outcome and
from every capacity-exceeded outcome — and the store is returned unchanged:
no registration row is written and no event counter is updated. -/
theorem C8_missing_required_field_rejected (db : DB) (r : RegisterRequest)
    (h : r.firstName = none ∨ r.lastName = none ∨ r.email = none ∨
         r.phone = none ∨ r.eventId = none ∨ r.tickets = none) :
    register db r = (.validationError, db) ∧
    RegisterOutcome.validationError ≠ RegisterOutcome.notFound ∧
    (∀ k : Int, RegisterOutcome.validationError ≠ RegisterOutcome.capacityError k) ∧
    (∀ reg n, RegisterOutcome.validationError ≠ RegisterOutcome.success reg n) := by
  have hm : missingRequired r = true := by
    rcases h with h | h | h | h | h | h <;>
      simp [missingRequired, h, truthyStr, truthyNat]
  refine ⟨?_, by simp, fun k => by simp, fun reg n => by simp⟩
  simp [register, registerOn, hm]

/-- Closed witness for C8 at a concrete request with a missing email. -/
theorem C8_missing_required_field_rejected_witness :
    register sampleDb { sampleRequest with email := none } =
      (.validationError, sampleDb) :=
  (C8_missing_required_field_rejected sampleDb { sampleRequest with email := none }
    (Or.inr (Or.inr (Or.inl rfl)))).1

/-- Claim C10: A register request whose `tickets` field is absent or `0`
(falsy) is rejected as a validation failure whatever the store contents —
in particular even when the referenced event exists with remaining
capacity, since the statement holds for every `db` — with the store
unchanged; moreover no call to the handler on any store and any request
ever adds a zero-ticket registration row, so a zero-ticket registration is
impossible through this interface. -/
theorem C10_zero_tickets_rejected (db : DB) (r : RegisterRequest)
    (h : r.tickets = none ∨ r.tickets = some 0) :
    register db r = (.validationError, db) ∧
    ∀ (db₀ : DB) (r₀ : RegisterRequest), ∀ x ∈ (register db₀ r₀).2.registrations,
      x.tickets = 0 → x ∈ db₀.registrations := by
  have hm : missingRequired r = true := by
    rcases h with h | h <;> simp [missingRequired, h, truthyNat]
  exact ⟨by simp [register, registerOn, hm], register_no_zero_ticket_row⟩

/-- Closed witness for C10: a zero-ticket request against a store whose
event exists and has remaining capacity is still rejected untouched. -/
theorem C10_zero_tickets_rejected_witness :
    register sampleDb { sampleRequest with tickets := some 0 } =
      (.validationError, sampleDb) :=
  (C10_zero_tickets_rejected sampleDb { sampleRequest with tickets := some 0 }
    (Or.inr rfl)).1

/-- The registration row inserted by `register sampleDb sampleRequest`. -/
def witnessReg : Registration :=
  { id := 2, eventId := 1, firstName := "Ravi", lastName := "Kumar"
    email := "ravi@example.com", phone := "8888888888", tickets := 2, comments := "" }

/-- The store left by `register sampleDb sampleRequest` (10 of 10 taken). -/
def witnessDb : DB :=
  { events := [{ sampleEvent with attendees := 10 }]
    registrations := [sampleReg, witnessReg], nextEventId := 2, nextRegId := 3 }

/-- Claim C1: For every event and every sequence of register operations run
sequentially from any starting store, after each successful registration
the sum of tickets over the event's registration rows is at most the
event's capacity (the capacity check is made against the fresh aggregate,
so every success step re-establishes the bound). -/
theorem C1_capacity_invariant (db₀ : DB) (rs : List RegisterRequest)
    (r : RegisterRequest) (reg : Registration) (n : Nat) (db' : DB) (event : Event)
    (h : register (registerSeq db₀ rs) r = (.success reg n, db'))
    (he : getEventById db' reg.eventId = some event) :
    getEventAttendeeCount db' reg.eventId ≤ event.capacity := by
  obtain ⟨-, -, hcnt, -, ev, -, hlook, hle⟩ :=
    register_post_state (registerSeq db₀ rs) r reg n db' h
  have hev : event = { ev with attendees := n } := by
    rw [he] at hlook
    exact Option.some.inj hlook
  rw [hcnt, hev]
  exact hle

/-- Closed witness for C1: one registration of 2 tickets into an event
with capacity 10 and 8 tickets already taken. -/
theorem C1_capacity_invariant_witness :
    getEventAttendeeCount witnessDb witnessReg.eventId ≤
      ({ sampleEvent with attendees := 10 } : Event).capacity :=
  C1_capacity_invariant sampleDb [] sampleRequest witnessReg 10 witnessDb
    { sampleEvent with attendees := 10 } (by decide) (by decide)

/-- Claim C2: With all required fields present and the event found:
a request with `current + requested ≤ capacity` succeeds (in particular a
request for exactly the remaining capacity), writing one registration row;
a request with `current + requested > capacity` is rejected with the
capacity outcome carrying exactly `capacity - current` remaining tickets
and leaves the store unchanged — no registration is written. -/
theorem C2_capacity_check (db : DB) (r : RegisterRequest) (event : Event)
    (hv : missingRequired r = false)
    (he : getEventById db (r.eventId.getD 0) = some event) :
    (getEventAttendeeCount db (r.eventId.getD 0) + r.tickets.getD 0 ≤ event.capacity →
      ∃ reg db', register db r =
        (.success reg (getEventAttendeeCount db (r.eventId.getD 0) + r.tickets.getD 0),
          db') ∧
        reg.tickets = r.tickets.getD 0 ∧
        db'.registrations = db.registrations ++ [reg]) ∧
    (getEventAttendeeCount db (r.eventId.getD 0) + r.tickets.getD 0 > event.capacity →
      register db r = (.capacityError ((event.capacity : Int) -
        (getEventAttendeeCount db (r.eventId.getD 0) : Int)), db)) := by
  constructor
  · intro hle
    exact ⟨_, _, registerOn_success_eq db db r event hv he hle, rfl, rfl⟩
  · intro hgt
    exact registerOn_capacity_eq db db r event hv he hgt

/-- Closed witness for C2 at the sample store (8 of 10 tickets taken). -/
theorem C2_capacity_check_witness :
    (getEventAttendeeCount sampleDb (sampleRequest.eventId.getD 0) +
        sampleRequest.tickets.getD 0 ≤ sampleEvent.capacity →
      ∃ reg db', register sampleDb sampleRequest =
        (.success reg (getEventAttendeeCount sampleDb (sampleRequest.eventId.getD 0) +
          sampleRequest.tickets.getD 0), db') ∧
        reg.tickets = sampleRequest.tickets.getD 0 ∧
        db'.registrations = sampleDb.registrations ++ [reg]) ∧
    (getEventAttendeeCount sampleDb (sampleRequest.eventId.getD 0) +
        sampleRequest.tickets.getD 0 > sampleEvent.capacity →
      register sampleDb sampleRequest = (.capacityError ((sampleEvent.capacity : Int) -
        (getEventAttendeeCount sampleDb (sampleRequest.eventId.getD 0) : Int)),
        sampleDb)) :=
  C2_capacity_check sampleDb sampleRequest sampleEvent (by decide) (by decide)

/-- Claim C3: The capacity decision is computed from the fresh aggregate sum
over registration rows and never from the event's cached `attendees`
column: overwriting that column with an arbitrary value before the request
does not change the handler's outcome; and on success the event's
`attendees` column is overwritten with exactly
`currentAttendees + requestedTickets`, `currentAttendees` being the
pre-state aggregate. -/
theorem C3_fresh_aggregate (db : DB) (r : RegisterRequest) (a : Nat) :
    (register (updateEventAttendees db (r.eventId.getD 0) a) r).1 =
      (register db r).1 ∧
    (∀ reg n db', register db r = (.success reg n, db') →
      n = getEventAttendeeCount db reg.eventId + reg.tickets ∧
      ∀ e', getEventById db' reg.eventId = some e' → e'.attendees = n) := by
  constructor
  · by_cases hv : missingRequired r = true
    · simp [register, registerOn, hv]
    · rw [Bool.not_eq_true] at hv
      cases he : getEventById db (r.eventId.getD 0) with
      | none =>
        have he2 : getEventById (updateEventAttendees db (r.eventId.getD 0) a)
            (r.eventId.getD 0) = none := by
          rw [getEventById_update, he]; rfl
        simp [register, registerOn, hv, he, he2]
      | some ev =>
        have hid : ev.id = r.eventId.getD 0 := getEventById_id _ _ _ he
        have he2 : getEventById (updateEventAttendees db (r.eventId.getD 0) a)
            (r.eventId.getD 0) = some { ev with attendees := a } := by
          rw [getEventById_update, he]
          simp [hid]
        have hcnt := getEventAttendeeCount_update db (r.eventId.getD 0) a (r.eventId.getD 0)
        by_cases hc : getEventAttendeeCount db (r.eventId.getD 0) + r.tickets.getD 0 >
            ev.capacity
        · have h1 := registerOn_capacity_eq (updateEventAttendees db (r.eventId.getD 0) a)
            (updateEventAttendees db (r.eventId.getD 0) a) r { ev with attendees := a }
            hv he2 (by rw [hcnt]; exact hc)
          have h2 := registerOn_capacity_eq db db r ev hv he hc
          show (registerOn _ _ r).1 = (registerOn db db r).1
          rw [h1, h2, hcnt]
        · have hle := Nat.le_of_not_lt hc
          have h1 := registerOn_success_eq (updateEventAttendees db (r.eventId.getD 0) a)
            (updateEventAttendees db (r.eventId.getD 0) a) r { ev with attendees := a }
            hv he2 (by rw [hcnt]; exact hle)
          have h2 := registerOn_success_eq db db r ev hv he hle
          show (registerOn _ _ r).1 = (registerOn db db r).1
          rw [h1, h2, hcnt]
          rfl
  · intro reg n db' h
    obtain ⟨hre, hrt, hcnt, hn, ev, hev, hlook, hle⟩ :=
      register_post_state db r reg n db' h
    refine ⟨hn, fun e' he' => ?_⟩
    rw [hlook] at he'
    rw [← Option.some.inj he']

/-- Closed witness for C3 at the sample store: the written counter equals
the fresh aggregate plus the requested tickets, and the stored event row
carries it. -/
theorem C3_fresh_aggregate_witness :
    10 = getEventAttendeeCount sampleDb witnessReg.eventId + witnessReg.tickets ∧
    ∀ e', getEventById witnessDb witnessReg.eventId = some e' → e'.attendees = 10 :=
  (C3_fresh_aggregate sampleDb sampleRequest 0).2 witnessReg 10 witnessDb (by decide)

/-- A second concurrent request for 2 tickets against event 1. -/
def raceRequest : RegisterRequest :=
  { firstName := some "Meera", lastName := some "Iyer", email := some "meera@example.com"
    phone := some "7777777777", eventId := some 1, tickets := some 2, comments := none }

/-- The registration row the second racing request inserts. -/
def raceReg : Registration :=
  { id := 3, eventId := 1, firstName := "Meera", lastName := "Iyer"
    email := "meera@example.com", phone := "7777777777", tickets := 2, comments := "" }

/-- The overbooked store after both racing requests commit (12 of 10). -/
def raceDb : DB :=
  { events := [{ sampleEvent with attendees := 10 }]
    registrations := [sampleReg, witnessReg, raceReg], nextEventId := 2, nextRegId := 4 }

/-- Claim C9: Two register requests for the same event can interleave so that
both read the same `currentAttendees` from the store before either write
lands (nothing locks the read-check-write sequence), both pass the
capacity check, both succeed, and the resulting sum of registered tickets
strictly exceeds the event's capacity. -/
theorem C9_concurrent_overbook :
    ∃ (db : DB) (r1 r2 : RegisterRequest) (event : Event)
      (reg1 reg2 : Registration) (n1 n2 : Nat) (db1 db2 : DB),
      r1.eventId = r2.eventId ∧
      getEventById db (r1.eventId.getD 0) = some event ∧
      getEventAttendeeCount db (r1.eventId.getD 0) + r1.tickets.getD 0 ≤
        event.capacity ∧
      getEventAttendeeCount db (r2.eventId.getD 0) + r2.tickets.getD 0 ≤
        event.capacity ∧
      registerOn db db r1 = (.success reg1 n1, db1) ∧
      registerOn db db1 r2 = (.success reg2 n2, db2) ∧
      getEventAttendeeCount db2 (r1.eventId.getD 0) > event.capacity := by
  exact ⟨sampleDb, sampleRequest, raceRequest, sampleEvent, witnessReg, raceReg,
    10, 10, witnessDb, raceDb, rfl, by decide, by decide, by decide, by decide,
    by decide, by decide⟩

/-- Counterexample for C4 as stated: when the registration-removal step
succeeds and the event-removal step fails, `deleteEvent` fails overall yet
partial state is committed — the event's registrations are removed while
the event itself remains. -/
theorem C4_deleteEvent_nonatomic_cex :
    (deleteEvent sampleDb 1 false true).1 = .error () ∧
    (deleteEvent sampleDb 1 false true).2 ≠ sampleDb ∧
    getEventRegistrations (deleteEvent sampleDb 1 false true).2 1 = [] ∧
    getEventById (deleteEvent sampleDb 1 false true).2 1 = some sampleEvent := by
  exact ⟨rfl, by decide, rfl, by decide⟩

/-- Claim C4, amended: `deleteEvent` fails overall when either of its two
steps fails, and a failure of the first (registration-removal) step
commits nothing; but the steps are not one atomic unit: a failure of the
second (event-removal) step leaves the registrations referencing the
event already removed while the event itself remains. -/
theorem C4_deleteEvent_failure_semantics (db : DB) (eventId : Nat) (f2 : Bool) :
    deleteEvent db eventId true f2 = (.error (), db) ∧
    deleteEvent db eventId false true =
      (.error (), { db with
        registrations := db.registrations.filter (fun r => r.eventId ≠ eventId) }) ∧
    getEventById (deleteEvent db eventId false true).2 eventId =
      getEventById db eventId :=
  ⟨rfl, rfl, rfl⟩

/-- In a table whose mapped ids have no duplicates, at most one row
matches a given id. -/
theorem count_id_le_one {l : List Event} (h : (l.map (fun e => e.id)).Nodup)
    (k : Nat) : (l.filter (fun e => e.id = k)).length ≤ 1 := by
  induction l with
  | nil => simp
  | cons a t ih =>
    simp only [List.map_cons, List.nodup_cons] at h
    obtain ⟨ha, ht⟩ := h
    by_cases hk : a.id = k
    · have hnil : t.filter (fun e => e.id = k) = [] := by
        rw [List.filter_eq_nil_iff]
        intro e he
        simp only [decide_eq_true_eq]
        intro hek
        exact ha (by rw [hk, ← hek]; exact List.mem_map_of_mem _ he)
      simp [List.filter_cons, hk, hnil]
    · simp only [List.filter_cons, hk, decide_False, if_false]
      exact ih ht

/-- Claim C5: With both storage steps succeeding, `deleteEvent` removes
every registration referencing the event and then the event row itself,
and resolves with the number of events removed — 0 when the id did not
exist, 1 when it did (ids being unique, as the PRIMARY KEY guarantees);
afterwards the event's registration list is empty and the event lookup
reports not-found. -/
theorem C5_deleteEvent_success (db : DB) (eventId : Nat)
    (hnodup : (db.events.map (fun e => e.id)).Nodup) :
    (deleteEvent db eventId false false).2.registrations =
      db.registrations.filter (fun r => r.eventId ≠ eventId) ∧
    (deleteEvent db eventId false false).2.events =
      db.events.filter (fun e => e.id ≠ eventId) ∧
    (deleteEvent db eventId false false).1 =
      .ok (if getEventById db eventId = none then 0 else 1) ∧
    getEventRegistrations (deleteEvent db eventId false false).2 eventId = [] ∧
    getEventById (deleteEvent db eventId false false).2 eventId = none := by
  refine ⟨rfl, rfl, ?_, ?_, ?_⟩
  · have hdel : (deleteEvent db eventId false false).1 =
        .ok ((db.events.filter (fun e => e.id = eventId)).length) := rfl
    rw [hdel]
    congr 1
    by_cases hf : getEventById db eventId = none
    · rw [if_pos hf]
      have hnil : db.events.filter (fun e => e.id = eventId) = [] := by
        rw [List.filter_eq_nil_iff]
        intro e he
        have := List.find?_eq_none.mp hf e he
        simpa using this
      rw [hnil]
      rfl
    · rw [if_neg hf]
      obtain ⟨ev, hev⟩ := Option.ne_none_iff_exists'.mp hf
      have h1 : ev ∈ db.events.filter (fun e => e.id = eventId) := by
        rw [List.mem_filter]
        exact ⟨List.mem_of_find?_eq_some hev, by simpa using List.find?_some hev⟩
      have h2 := count_id_le_one hnodup eventId
      have h3 : 0 < (db.events.filter (fun e => e.id = eventId)).length :=
        List.length_pos.mpr (List.ne_nil_of_mem h1)
      omega
  · show List.filter _ (List.filter _ db.registrations) = []
    rw [List.filter_eq_nil_iff]
    intro x hx
    have := (List.mem_filter.mp hx).2
    simp only [decide_eq_true_eq] at this ⊢
    exact this
  · show List.find? _ (List.filter _ db.events) = none
    rw [List.find?_eq_none]
    intro x hx
    have := (List.mem_filter.mp hx).2
    simp only [decide_eq_true_eq] at this ⊢
    exact this

/-- The comparison `eventKeyLe` unfolded to its propositional form. -/
theorem eventKeyLe_iff (a b : Event) :
    eventKeyLe a b = true ↔
      a.date < b.date ∨ (a.date = b.date ∧ a.time ≤ b.time) := by
  simp [eventKeyLe]

/-- The (date, time) comparison is transitive. -/
theorem eventKeyLe_trans (a b c : Event) (h1 : eventKeyLe a b = true)
    (h2 : eventKeyLe b c = true) : eventKeyLe a c = true := by
  rw [eventKeyLe_iff] at h1 h2 ⊢
  rcases h1 with h1 | ⟨h1, h1'⟩ <;> rcases h2 with h2 | ⟨h2, h2'⟩
  · exact Or.inl (lt_trans h1 h2)
  · exact Or.inl (h2 ▸ h1)
  · exact Or.inl (by rw [h1]; exact h2)
  · exact Or.inr ⟨h1.trans h2, le_trans h1' h2'⟩

/-- The (date, time) comparison is total. -/
theorem eventKeyLe_total (a b : Event) :
    (eventKeyLe a b || eventKeyLe b a) = true := by
  simp only [Bool.or_eq_true, eventKeyLe_iff]
  rcases lt_trichotomy a.date b.date with h | h | h
  · exact Or.inl (Or.inl h)
  · rcases le_total a.time b.time with ht | ht
    · exact Or.inl (Or.inr ⟨h, ht⟩)
    · exact Or.inr (Or.inr ⟨h.symm, ht⟩)
  · exact Or.inr (Or.inl h)

/-- Counterexample for C6 as stated: `""` is a filter value distinct from
`"all"`, yet the query returns every event rather than exactly the events
whose category equals `""` — JavaScript truthiness makes the handler treat
an empty-string filter like an absent one. -/
theorem C6_empty_filter_cex :
    ("" : String) ≠ "all" ∧
    getAllEvents sampleDb (some "") = [sampleEvent] ∧
    sampleEvent.category ≠ "" ∧
    sampleDb.events.filter (fun e => e.category = "") = [] := by
  refine ⟨by decide, ?_, by decide, by decide⟩
  show ([sampleEvent].mergeSort eventKeyLe) = [sampleEvent]
  exact List.mergeSort_singleton sampleEvent

/-- Claim C6, amended: `listEvents` with no filter, with the sentinel
`"all"`, or with the (falsy) empty-string filter returns all events; with
any other category filter it returns exactly the events whose category
equals the filter; in all cases the result is ordered ascending by
(date, time). -/
theorem C6_listEvents (db : DB) (c : String) :
    (getAllEvents db none).Perm db.events ∧
    List.Sorted (fun x y : Event => eventKeyLe x y = true) (getAllEvents db none) ∧
    getAllEvents db (some "all") = getAllEvents db none ∧
    getAllEvents db (some "") = getAllEvents db none ∧
    (c ≠ "" → c ≠ "all" →
      (getAllEvents db (some c)).Perm
        (db.events.filter (fun e => e.category = c)) ∧
      List.Sorted (fun x y : Event => eventKeyLe x y = true)
        (getAllEvents db (some c))) := by
  refine ⟨?_, ?_, ?_, ?_, fun hc hall => ?_⟩
  · show (db.events.mergeSort eventKeyLe).Perm db.events
    exact List.mergeSort_perm db.events eventKeyLe
  · show List.Sorted _ (db.events.mergeSort eventKeyLe)
    exact List.sorted_mergeSort eventKeyLe_trans eventKeyLe_total db.events
  · rfl
  · rfl
  · have hga : getAllEvents db (some c) =
        (db.events.filter (fun e => e.category = c)).mergeSort eventKeyLe := by
      simp [getAllEvents, truthyStr, hc, hall]
    rw [hga]
    exact ⟨List.mergeSort_perm _ _,
      List.sorted_mergeSort eventKeyLe_trans eventKeyLe_total _⟩

/-- Closed witness for C6's filtered branch at the sample store. -/
theorem C6_listEvents_witness :
    (getAllEvents sampleDb (some "tech")).Perm
      (sampleDb.events.filter (fun e => e.category = "tech")) ∧
    List.Sorted (fun x y : Event => eventKeyLe x y = true)
      (getAllEvents sampleDb (some "tech")) :=
  (C6_listEvents sampleDb "tech").2.2.2.2 (by decide) (by decide)

/-- An empty store, as after table creation with no sample data. -/
def emptyDb : DB :=
  { events := [], registrations := [], nextEventId := 1, nextRegId := 1 }

/-- Creation input with every required field present, `price` given
(as the boundary layer always does) and `image` absent. -/
def noImageEventData : EventData :=
  { title := "Launch", description := "Product launch", date := "2025-12-01"
    time := "10:00", location := "Pune", capacity := 100, category := "tech"
    image := none, price := some 0 }

/-- Creation input with every field present and truthy. -/
def fullEventData : EventData :=
  { title := "Launch", description := "Product launch", date := "2025-12-01"
    time := "10:00", location := "Pune", capacity := 100, category := "tech"
    image := some "banner.jpg", price := some 50 }

/-- Counterexample for C7 as stated: with all required fields present but
`image` absent, the stored row receives the placeholder URL while the
object `createEvent` resolves with keeps the absent `image` — the
returned record does not agree with what was stored. -/
theorem C7_created_return_mismatch_cex :
    (createEvent emptyDb noImageEventData).2.events =
      [{ id := 1, title := "Launch", description := "Product launch"
         date := "2025-12-01", time := "10:00", location := "Pune"
         capacity := 100, attendees := 0, category := "tech"
         image := placeholderImage, price := 0 }] ∧
    (createEvent emptyDb noImageEventData).1.image = none ∧
    ¬ createdMatchesStored (createEvent emptyDb noImageEventData).1
      { id := 1, title := "Launch", description := "Product launch"
        date := "2025-12-01", time := "10:00", location := "Pune"
        capacity := 100, attendees := 0, category := "tech"
        image := placeholderImage, price := 0 } := by
  refine ⟨rfl, rfl, ?_⟩
  intro h
  exact Option.noConfusion h.2.2.2.2.2.2.2.2.1

/-- Claim C7, amended: `createEvent` stores a row carrying the newly
assigned id, `attendees` 0, `price` defaulted to 0 and `image` defaulted
to the placeholder URL when those inputs are falsy; the object it returns
carries the new id, `attendees` 0 and otherwise the raw input fields — so
it agrees per-field with the stored row whenever `image` is present and
non-empty and `price` is present, but its `image` is the raw input, not
the stored placeholder, when `image` is absent. -/
theorem C7_createEvent_spec (db : DB) (d : EventData) :
    (createEvent db d).1.id = db.nextEventId ∧
    (createEvent db d).1.attendees = 0 ∧
    (createEvent db d).1.image = d.image ∧
    (createEvent db d).1.price = d.price ∧
    ∃ stored : Event,
      (createEvent db d).2.events = db.events ++ [stored] ∧
      stored.id = db.nextEventId ∧ stored.attendees = 0 ∧
      stored.title = d.title ∧ stored.description = d.description ∧
      stored.date = d.date ∧ stored.time = d.time ∧
      stored.location = d.location ∧ stored.capacity = d.capacity ∧
      stored.category = d.category ∧
      stored.image = jsOrString d.image placeholderImage ∧
      stored.price = jsOrInt d.price 0 ∧
      (truthyStr d.image = true → d.price ≠ none →
        createdMatchesStored (createEvent db d).1 stored) := by
  refine ⟨rfl, rfl, rfl, rfl, _, rfl, rfl, rfl, rfl, rfl, rfl, rfl, rfl, rfl,
    rfl, rfl, rfl, ?_⟩
  intro hi hp
  cases hdi : d.image with
  | none => rw [hdi] at hi; simp [truthyStr] at hi
  | some s =>
    cases hdp : d.price with
    | none => exact absurd hdp hp
    | some n =>
      have hs : s ≠ "" := by
        rw [hdi] at hi
        simpa [truthyStr] using hi
      refine ⟨rfl, rfl, rfl, rfl, rfl, rfl, rfl, rfl, ?_, ?_, rfl⟩
      · simp only [createEvent]
        rw [hdi]
        simp [jsOrString, hs]
      · simp only [createEvent]
        rw [hdp]
        by_cases hn : n = 0 <;> simp [jsOrInt, hn]

/-- Closed witness for C7 at a fully specified input: the returned object
agrees per-field with the stored row. -/
theorem C7_createEvent_spec_witness :
    ∃ stored : Event, (createEvent emptyDb fullEventData).2.events = [stored] ∧
      createdMatchesStored (createEvent emptyDb fullEventData).1 stored := by
  obtain ⟨-, -, -, -, stored, hev, -, -, -, -, -, -, -, -, -, -, -, hmatch⟩ :=
    C7_createEvent_spec emptyDb fullEventData
  exact ⟨stored, by simpa using hev, hmatch (by decide) (by decide)⟩

/-- Closed witness for C5 at the sample store. -/
theorem C5_deleteEvent_success_witness :
    (deleteEvent sampleDb 1 false false).2.registrations =
      sampleDb.registrations.filter (fun r => r.eventId ≠ 1) ∧
    (deleteEvent sampleDb 1 false false).2.events =
      sampleDb.events.filter (fun e => e.id ≠ 1) ∧
    (deleteEvent sampleDb 1 false false).1 =
      .ok (if getEventById sampleDb 1 = none then 0 else 1) ∧
    getEventRegistrations (deleteEvent sampleDb 1 false false).2 1 = [] ∧
    getEventById (deleteEvent sampleDb 1 false false).2 1 = none :=
  C5_deleteEvent_success sampleDb 1 (by decide)

end EventHub
